import Mathlib

/-!
Shallow embedding of the MCP Fireproof todo/wishlist servers
(src/src/index.ts — "todos" variant; src/unnamed/part_000 — "wishlist"
variant). Pure definitions mirror the TypeScript handlers; JavaScript
object state (the `todos` / `wishes` module-level objects) is modelled as
explicit association lists in insertion order, and the Fireproof database
as a list of documents. `Date.now()` and store-assigned identifiers are
passed as explicit parameters.
-/

namespace Todos

/-- A todo document as stored in Fireproof (src/src/index.ts, type `Todo`).
`updated` is `Option Nat` because no live code path ever writes the field:
`db.put` at creation stores only `text`, `done`, `created`, and the
mark-as-done put spreads the fetched document, so `updated` stays absent. -/
structure TodoDoc where
  _id : String
  text : String
  done : Bool
  created : Nat
  updated : Option Nat
deriving DecidableEq, Repr

/-- The Mirror Cache: the module-level `todos` object, an id-keyed mapping
kept in JavaScript property-insertion order, hence an association list. -/
abbrev Cache := List (String × TodoDoc)

/-- `todos[id] = t` on a JS object: overwrite in place when the key exists
(property order is preserved), otherwise append. -/
def cachePut (c : Cache) (id : String) (t : TodoDoc) : Cache :=
  if c.any (fun p => p.1 = id) then
    c.map (fun p => if p.1 = id then (id, t) else p)
  else
    c ++ [(id, t)]

/-- `todos[id]` lookup on the JS object. -/
def cacheGet (c : Cache) (id : String) : Option TodoDoc :=
  (c.find? (fun p => p.1 = id)).map (fun p => p.2)

/-- Descending-by-`created` comparison used by the `created` index query. -/
def createdGe (a b : TodoDoc) : Prop := b.created ≤ a.created

instance : DecidableRel createdGe := fun a b => Nat.decLe b.created a.created

instance : IsTotal TodoDoc createdGe := ⟨fun a b => Nat.le_total b.created a.created⟩

instance : IsTrans TodoDoc createdGe := ⟨fun _ _ _ h1 h2 => Nat.le_trans h2 h1⟩

/-- `db.query("created", { includeDocs: true, descending: true, limit })`:
the rows of the creation-time index, most recent first, truncated to
`limit`. -/
def queryCreatedDesc (docs : List TodoDoc) (limit : Nat) : List TodoDoc :=
  (List.insertionSort createdGe docs).take limit

/-- The body of `onDbEvent` after the `await db.query` resolved or threw
(src/src/index.ts lines 53-67). The query is issued FIRST; only once it
has succeeded does the handler clear `todos` and re-insert each returned
row keyed by its `_id`. A rejected query therefore throws out of the
handler before the cache is touched. Returns (raised error?, new cache). -/
def onDbEvent (queryResult : Except String (List TodoDoc)) (cache : Cache) :
    Option String × Cache :=
  match queryResult with
  | Except.error e => (some e, cache)
  | Except.ok rows =>
      (none, rows.foldl (fun c t => cachePut c t._id t) ([] : Cache))

/-- A completed (successful) refresh against store contents `docs`. -/
def refresh (docs : List TodoDoc) (cache : Cache) : Cache :=
  (onDbEvent (Except.ok (queryCreatedDesc docs 10)) cache).2

/-- `String(x)` on a tool argument that is either absent or a string:
`String(undefined)` is the literal string "undefined". -/
def jsString (x : Option String) : String :=
  match x with
  | none => "undefined"
  | some s => s

/-- Arguments of the todo-variant tools (`request.params.arguments`). -/
structure Args where
  text : Option String
  id : Option String
deriving DecidableEq, Repr

/-- Whole server state: the Fireproof store contents plus the Mirror Cache. -/
structure ServerState where
  docs : List TodoDoc
  cache : Cache
deriving DecidableEq

/-- Placeholder-faithful `JSON.stringify(todos)`: some deterministic
serialization of the cache (its exact format is not load-bearing). -/
def stringifyCache (c : Cache) : String :=
  String.intercalate "," (c.map (fun p => p.1 ++ ":" ++ p.2.text))

/-- The `CallToolRequestSchema` handler (src/src/index.ts lines 178-250).
`newId` is the identifier Fireproof assigns to a fresh `put`; `now` is
`Date.now()`. Returns the response (or thrown error message) and the
post-call state; note no branch ever touches `cache`. -/
def handleCallTool (name : String) (args : Args) (s : ServerState)
    (newId : String) (now : Nat) : Except String String × ServerState :=
  match name with
  | "create_todo" =>
      let text := jsString args.text
      if text = "" then (Except.error "Text is required", s)
      else
        (Except.ok ("Created todo " ++ newId ++ ": " ++ text),
         ⟨s.docs ++ [⟨newId, text, false, now, none⟩], s.cache⟩)
  | "list_todos" => (Except.ok (stringifyCache s.cache), s)
  | "mark_todo_as_done" =>
      let id := jsString args.id
      if id = "" then (Except.error "ID is required", s)
      else
        match s.docs.find? (fun d => d._id = id) with
        | none => (Except.error ("Not found: " ++ id), s)
        | some doc =>
            let newDoc : TodoDoc := { doc with done := true }
            (Except.ok ("Marked todo " ++ id ++ " as done"),
             ⟨s.docs.map (fun d => if d._id = id then newDoc else d), s.cache⟩)
  | _ => (Except.error "Unknown tool", s)

/-- A resource descriptor as returned by the list-resources handler. -/
structure Resource where
  uri : String
  mimeType : String
  name : String
  description : String
deriving DecidableEq, Repr

/-- The `ListResourcesRequestSchema` handler (src/src/index.ts lines
97-106): projects every cache entry, in cache order; it never throws. -/
def listResources (s : ServerState) : Except String (List Resource) :=
  Except.ok (s.cache.map (fun p =>
    ⟨"todo:///" ++ p.1, "text/plain", p.2.text, "A text todo: " ++ p.2.text⟩))

/-- `pathname.replace(/^\//, '')`: strip at most one leading slash. -/
def stripLeadingSlash (p : String) : String :=
  match p.data with
  | '/' :: rest => String.mk rest
  | _ => p

/-- A single returned resource content. -/
structure Content where
  uri : String
  mimeType : String
  text : String
deriving DecidableEq, Repr

/-- The `ReadResourceRequestSchema` handler (src/src/index.ts lines
112-128), given the URL's path component. -/
def readResource (pathname : String) (c : Cache) (uri : String) :
    Except String Content :=
  let id := stripLeadingSlash pathname
  match cacheGet c id with
  | none => Except.error ("Todo " ++ id ++ " not found")
  | some todo => Except.ok ⟨uri, "text/plain", todo.text⟩

/-- One observable transition of the todo server: a refresh triggered by
startup or a subscription event (successful or failed), a tool call
(the only writers, which go to the store and never touch the cache),
a read-only request (list/read resources, list tools, prompts — all leave
the state unchanged), or an external store mutation delivered by sync
(`db.subscribe` fires afterwards, as a separate refresh step). -/
inductive Step : ServerState → ServerState → Prop where
  | refreshOk (s : ServerState) : Step s ⟨s.docs, refresh s.docs s.cache⟩
  | refreshFail (s : ServerState) (e : String) :
      Step s ⟨s.docs, (onDbEvent (Except.error e) s.cache).2⟩
  | toolCall (s : ServerState) (name : String) (args : Args)
      (newId : String) (now : Nat) :
      Step s (handleCallTool name args s newId now).2
  | readOnly (s : ServerState) : Step s s
  | storeSync (s : ServerState) (docs : List TodoDoc) : Step s ⟨docs, s.cache⟩

/-- States reachable from process startup: the cache object starts empty
(`const todos = {}`) over arbitrary pre-existing store contents, and then
any sequence of steps runs. -/
inductive Reachable : ServerState → Prop where
  | init (docs : List TodoDoc) : Reachable ⟨docs, []⟩
  | step {s s' : ServerState} : Reachable s → Step s s' → Reachable s'

end Todos

namespace Wishlist

/-- A Christmas wish document (src/unnamed/part_000, type `Wish`). -/
structure WishRec where
  _id : String
  done : Bool
  text : String
  created : Nat
  updated : Option Nat
deriving DecidableEq, Repr

/-- An elf shopping item (src/unnamed/part_000, type `ElfItem`). `done` is
`Option Bool`: the field is absent on creation but `{...doc, done: true}`
in `mark_wish_as_granted` can attach it to a fetched elf document. -/
structure ElfItem where
  _id : String
  name : String
  price : Nat
  wishId : String
  created : Nat
  done : Option Bool
deriving DecidableEq, Repr

/-- A document of the wishlist store: the `Wish | ElfItem` union. The
`'text' in wish` field-presence test distinguishes the two shapes, so the
union is a sum whose left summand is exactly the documents having `text`. -/
inductive WishDoc where
  | wish (w : WishRec)
  | elf (e : ElfItem)
deriving DecidableEq, Repr

/-- The `_id` of either document shape. -/
def WishDoc.docId : WishDoc → String
  | WishDoc.wish w => w._id
  | WishDoc.elf e => e._id

/-- The `created` field of either document shape. -/
def WishDoc.createdAt : WishDoc → Nat
  | WishDoc.wish w => w.created
  | WishDoc.elf e => e.created

/-- The Mirror Cache of the wishlist variant: the module-level `wishes`
object in property-insertion order. -/
abbrev WCache := List (String × WishDoc)

/-- `wishes[id] = d` on the JS object. -/
def wcachePut (c : WCache) (id : String) (d : WishDoc) : WCache :=
  if c.any (fun p => p.1 = id) then
    c.map (fun p => if p.1 = id then (id, d) else p)
  else
    c ++ [(id, d)]

/-- `wishes[id]` lookup. -/
def wcacheGet (c : WCache) (id : String) : Option WishDoc :=
  (c.find? (fun p => p.1 = id)).map (fun p => p.2)

/-- Arguments of the wishlist tools and prompts
(`request.params.arguments`). -/
structure WArgs where
  text : Option String
  id : Option String
  name : Option String
  price : Option Nat
  wishId : Option String
  wish_id : Option String
deriving DecidableEq, Repr

/-- `!Number(x)` for a numeric-or-absent argument: absent gives `NaN`
(falsy) and `0` is falsy, so the check passes exactly for a present
non-zero number. -/
def priceTruthy (x : Option Nat) : Bool :=
  match x with
  | none => false
  | some n => n != 0

/-- Whole wishlist server state. -/
structure WState where
  docs : List WishDoc
  cache : WCache
deriving DecidableEq

/-- A tool descriptor as the `ListToolsRequestSchema` handler returns it
(name and description; the JSON input schema is protocol metadata the
dispatcher never consults). -/
structure ToolInfo where
  name : String
  description : String
deriving DecidableEq, Repr

/-- The `ListToolsRequestSchema` handler of the wishlist variant
(src/unnamed/part_000 lines 138-230): the fixed published tool list,
including `elf_shopping_list`. -/
def listToolsW : List ToolInfo :=
  [⟨"create_wish", "Create a new Christmas wish"⟩,
   ⟨"create_elf_item", "Create a new elf shopping item"⟩,
   ⟨"list_wishes", "Returns the list of wishes"⟩,
   ⟨"elf_shopping_list",
    "Generate a shopping list for elves to build a specific wish"⟩,
   ⟨"mark_wish_as_granted", "Mark a wish as granted"⟩,
   ⟨"delete_wish", "Delete a wish"⟩]

/-- Deterministic stand-in for `JSON.stringify(wishes)` (format not
load-bearing). -/
def stringifyWCache (c : WCache) : String :=
  String.intercalate "," (c.map (fun p => p.1))

/-- The `CallToolRequestSchema` handler of the wishlist variant
(src/unnamed/part_000 lines 232-337). The `switch` has cases for
`create_wish`, `create_elf_item`, `list_wishes`, `mark_wish_as_granted`
and `delete_wish`; every other name — `elf_shopping_list` included —
falls through to `default` and throws "Unknown tool". -/
def handleCallToolW (name : String) (args : WArgs) (s : WState)
    (newId : String) (now : Nat) : Except String String × WState :=
  match name with
  | "create_wish" =>
      let text := Todos.jsString args.text
      if text = "" then (Except.error "Text is required", s)
      else
        (Except.ok ("Created wish " ++ newId ++ ": " ++ text),
         ⟨s.docs ++ [WishDoc.wish ⟨newId, false, text, now, none⟩], s.cache⟩)
  | "create_elf_item" =>
      let nm := Todos.jsString args.name
      let wid := Todos.jsString args.wishId
      if nm = "" || !priceTruthy args.price || wid = "" then
        (Except.error "Name, price and wishId are required", s)
      else
        (Except.ok ("Created elf item " ++ newId ++ ": " ++ nm),
         ⟨s.docs ++ [WishDoc.elf ⟨newId, nm, args.price.getD 0, wid, now, none⟩],
          s.cache⟩)
  | "list_wishes" => (Except.ok (stringifyWCache s.cache), s)
  | "mark_wish_as_granted" =>
      let id := Todos.jsString args.id
      if id = "" then (Except.error "ID is required", s)
      else
        match s.docs.find? (fun d => d.docId = id) with
        | none => (Except.error ("Not found: " ++ id), s)
        | some doc =>
            let newDoc : WishDoc :=
              match doc with
              | WishDoc.wish w => WishDoc.wish { w with done := true }
              | WishDoc.elf e => WishDoc.elf { e with done := some true }
            (Except.ok ("Marked wish " ++ id ++ " as granted"),
             ⟨s.docs.map (fun d => if d.docId = id then newDoc else d), s.cache⟩)
  | "delete_wish" =>
      let id := Todos.jsString args.id
      if id = "" then (Except.error "ID is required", s)
      else
        (Except.ok ("Deleted wish " ++ id),
         ⟨s.docs.filter (fun d => d.docId != id), s.cache⟩)
  | _ => (Except.error "Unknown tool", s)

/-- One content block of a prompt message. -/
inductive MsgContent where
  | msgText (t : String)
  | resource (uri : String) (mimeType : String) (text : String)
deriving DecidableEq, Repr

/-- A prompt message. -/
structure Msg where
  role : String
  content : MsgContent
deriving DecidableEq, Repr

/-- The `GetPromptRequestSchema` handler of the wishlist variant
(src/unnamed/part_000 lines 373-451). For `elf_shopping_list` the guard is
`if (!wish || !('text' in wish))`: a cache hit that is an elf item (no
`text` field) raises the same not-found error as a miss. -/
def getPromptW (name : String) (args : WArgs) (c : WCache) :
    Except String (List Msg) :=
  match name with
  | "summarize_wishes" =>
      Except.ok
        ([⟨"user", MsgContent.msgText
            "Please summarize the following Christmas wishes:"⟩] ++
         c.map (fun p =>
           ⟨"user", MsgContent.resource ("wish:///" ++ p.1) "text/plain"
             (match p.2 with
              | WishDoc.wish w => w.text
              | WishDoc.elf e =>
                  e.name ++ " ($" ++ toString e.price ++ ")")⟩) ++
         [⟨"user", MsgContent.msgText
            "Provide a concise summary of all the Christmas wishes above."⟩])
  | "elf_shopping_list" =>
      let wishId := Todos.jsString args.wish_id
      match wcacheGet c wishId with
      | some (WishDoc.wish w) =>
          Except.ok
            [⟨"user", MsgContent.msgText
               "Please analyze this Christmas wish and create a detailed shopping list for the elves:"⟩,
             ⟨"user", MsgContent.resource ("wish:///" ++ wishId) "text/plain"
                w.text⟩,
             ⟨"user", MsgContent.msgText
               "Create a shopping list with item names and estimated prices that the elves would need to build this wish. Format as a bullet point list with each item followed by its price in parentheses."⟩]
      | _ => Except.error ("Wish " ++ wishId ++ " not found")
  | _ => Except.error "Unknown prompt"

end Wishlist

namespace Todos

lemma mem_cachePut {c : Cache} {id : String} {t : TodoDoc} {p : String × TodoDoc}
    (h : p ∈ cachePut c id t) : p ∈ c ∨ p = (id, t) := by
  unfold cachePut at h
  split at h
  · rcases List.mem_map.1 h with ⟨q, hq, hqe⟩
    by_cases hk : q.1 = id
    · right; rw [if_pos hk] at hqe; exact hqe.symm
    · left; rw [if_neg hk] at hqe; exact hqe ▸ hq
  · rcases List.mem_append.1 h with h1 | h1
    · exact Or.inl h1
    · exact Or.inr (List.mem_singleton.1 h1)

lemma foldl_cachePut_mem :
    ∀ (rows : List TodoDoc) (c : Cache) (p : String × TodoDoc),
      p ∈ rows.foldl (fun acc t => cachePut acc t._id t) c →
      p ∈ c ∨ ∃ t ∈ rows, p = (t._id, t) := by
  intro rows
  induction rows with
  | nil => intro c p h; exact Or.inl h
  | cons t ts ih =>
    intro c p h
    rw [List.foldl_cons] at h
    rcases ih _ _ h with h1 | ⟨u, hu, he⟩
    · rcases mem_cachePut h1 with h2 | h2
      · exact Or.inl h2
      · exact Or.inr ⟨t, List.mem_cons_self t ts, h2⟩
    · exact Or.inr ⟨u, List.mem_cons_of_mem t hu, he⟩

lemma length_cachePut (c : Cache) (id : String) (t : TodoDoc) :
    (cachePut c id t).length ≤ c.length + 1 := by
  unfold cachePut
  split
  · rw [List.length_map]; omega
  · rw [List.length_append]; simp

lemma length_foldl_cachePut :
    ∀ (rows : List TodoDoc) (c : Cache),
      (rows.foldl (fun acc t => cachePut acc t._id t) c).length ≤
        c.length + rows.length := by
  intro rows
  induction rows with
  | nil => intro c; simp
  | cons t ts ih =>
    intro c
    rw [List.foldl_cons, List.length_cons]
    have h1 := ih (cachePut c t._id t)
    have h2 := length_cachePut c t._id t
    omega

lemma cachePut_fresh {c : Cache} {id : String} (t : TodoDoc)
    (h : ∀ p ∈ c, p.1 ≠ id) : cachePut c id t = c ++ [(id, t)] := by
  have hc : ¬(c.any (fun p => p.1 = id) = true) := by
    simp only [List.any_eq_true, decide_eq_true_eq, not_exists, not_and]
    exact h
  unfold cachePut
  rw [if_neg hc]

lemma foldl_cachePut_append :
    ∀ (rows : List TodoDoc) (c : Cache),
      (∀ t ∈ rows, ∀ p ∈ c, p.1 ≠ t._id) →
      ((rows.map (fun t => t._id)).Nodup) →
      rows.foldl (fun acc t => cachePut acc t._id t) c =
        c ++ rows.map (fun t => (t._id, t)) := by
  intro rows
  induction rows with
  | nil => intro c _ _; simp
  | cons t ts ih =>
    intro c hdisj hnd
    simp only [List.map_cons, List.nodup_cons] at hnd
    rw [List.foldl_cons,
      cachePut_fresh t (fun p hp => hdisj t (List.mem_cons_self t ts) p hp)]
    have hd : ∀ u ∈ ts, ∀ p ∈ c ++ [(t._id, t)], p.1 ≠ u._id := by
      intro u hu p hp
      rcases List.mem_append.1 hp with h1 | h1
      · exact hdisj u (List.mem_cons_of_mem t hu) p h1
      · rw [List.mem_singleton.1 h1]
        intro he
        exact hnd.1 (List.mem_map.2 ⟨u, hu, he.symm⟩)
    rw [ih (c ++ [(t._id, t)]) hd hnd.2, List.map_cons, List.append_assoc,
      List.singleton_append]

lemma cacheGet_eq_of_mem {c : Cache} {id : String} {u : TodoDoc}
    (hmem : (id, u) ∈ c) (hnd : (c.map Prod.fst).Nodup) :
    cacheGet c id = some u := by
  unfold cacheGet
  cases hf : c.find? (fun p => p.1 = id) with
  | none =>
    exfalso
    have := List.find?_eq_none.1 hf _ hmem
    simp at this
  | some p =>
    have hp1 : p.1 = id := by
      have := List.find?_some hf
      simpa using this
    have hpc : p ∈ c := List.mem_of_find?_eq_some hf
    have hpe : p = (id, u) :=
      List.inj_on_of_nodup_map hnd hpc hmem (by simp [hp1])
    simp [hpe]

lemma mem_of_cacheGet {c : Cache} {id : String} {u : TodoDoc}
    (h : cacheGet c id = some u) : (id, u) ∈ c := by
  unfold cacheGet at h
  cases hf : c.find? (fun p => p.1 = id) with
  | none => rw [hf] at h; cases h
  | some p =>
      rw [hf] at h
      have hp1 : p.1 = id := by simpa using List.find?_some hf
      have hpc := List.mem_of_find?_eq_some hf
      have hp2 : p.2 = u := by simpa using h
      have : p = (id, u) := by
        cases p
        simp_all
      exact this ▸ hpc

lemma rows_ids_nodup (docs : List TodoDoc)
    (hids : (docs.map (fun d => d._id)).Nodup) :
    ((queryCreatedDesc docs 10).map (fun d => d._id)).Nodup := by
  unfold queryCreatedDesc
  rw [List.map_take]
  exact List.Nodup.sublist (List.take_sublist 10 _)
    (((List.perm_insertionSort createdGe docs).map (fun d => d._id)).nodup_iff.2
      hids)

lemma rows_sorted (docs : List TodoDoc) :
    List.Sorted createdGe (queryCreatedDesc docs 10) :=
  List.Pairwise.sublist (List.take_sublist 10 _)
    (List.sorted_insertionSort createdGe docs)

lemma refresh_eq (docs : List TodoDoc) (cache : Cache)
    (hids : (docs.map (fun d => d._id)).Nodup) :
    refresh docs cache =
      (queryCreatedDesc docs 10).map (fun t => (t._id, t)) := by
  unfold refresh onDbEvent
  exact foldl_cachePut_append _ _ (by intro t _ p hp; cases hp)
    (rows_ids_nodup docs hids)

lemma oldest_not_mem_take {l : List TodoDoc} {d : TodoDoc}
    (hs : List.Sorted createdGe l) (hn : l.Nodup) (hl : 10 < l.length)
    (hmin : ∀ e ∈ l, e ≠ d → d.created < e.created) :
    d ∉ l.take 10 := by
  intro hmem
  obtain ⟨i, hi, hig⟩ := List.getElem_of_mem hmem
  have hlen : (l.take 10).length = 10 := by
    rw [List.length_take]; omega
  have hi10 : i < 10 := by omega
  have hil : i < l.length := by omega
  rw [List.getElem_take] at hig
  have hrel : createdGe (l[i]) (l[10]) :=
    List.pairwise_iff_getElem.1 hs i 10 hil hl hi10
  have hne : l[10] ≠ d := by
    intro he
    have h10i : (10 : Nat) = i := (hn.getElem_inj_iff).1 (by rw [he, hig])
    omega
  have hlt := hmin (l[10]) (List.getElem_mem hl) hne
  rw [hig] at hrel
  unfold createdGe at hrel
  omega

lemma handleCallTool_cache (name : String) (args : Args) (s : ServerState)
    (newId : String) (now : Nat) :
    (handleCallTool name args s newId now).2.cache = s.cache := by
  unfold handleCallTool
  split
  · dsimp only
    split <;> rfl
  · rfl
  · dsimp only
    split
    · rfl
    · split <;> rfl
  · rfl

lemma refresh_length_le (docs : List TodoDoc) (cache : Cache) :
    (refresh docs cache).length ≤ 10 := by
  have h := length_foldl_cachePut (queryCreatedDesc docs 10) []
  have h2 : (queryCreatedDesc docs 10).length ≤ 10 := by
    unfold queryCreatedDesc
    rw [List.length_take]
    exact Nat.min_le_left _ _
  unfold refresh onDbEvent
  simp only [List.length_nil, Nat.zero_add] at h
  exact Nat.le_trans h h2

end Todos

/-- C1: a completed refresh queries the creation-time index (descending,
limit 10), clears the Mirror Cache and re-inserts each returned document
keyed by its `_id`; hence (given store ids are unique) the resulting cache
is exactly the queried documents keyed by their ids, its entries are in
descending `created` order, and when more than 10 documents are stored the
strictly-oldest one is absent from the cache. -/
theorem c1_refresh_window (docs : List Todos.TodoDoc) (cache : Todos.Cache)
    (hids : (docs.map (fun d => d._id)).Nodup) :
    Todos.refresh docs cache =
      (Todos.queryCreatedDesc docs 10).map (fun t => (t._id, t)) ∧
    List.Sorted Todos.createdGe ((Todos.refresh docs cache).map Prod.snd) ∧
    (∀ d ∈ docs, 10 < docs.length →
      (∀ e ∈ docs, e ≠ d → d.created < e.created) →
      d._id ∉ (Todos.refresh docs cache).map Prod.fst) := by
  have heq := Todos.refresh_eq docs cache hids
  refine ⟨heq, ?_, ?_⟩
  · rw [heq, List.map_map]
    have hc : (Prod.snd ∘ fun t : Todos.TodoDoc => (t._id, t)) = id := rfl
    rw [hc, List.map_id]
    exact Todos.rows_sorted docs
  · intro d hd hlen hmin hidmem
    rw [heq, List.map_map] at hidmem
    have hc : (Prod.fst ∘ fun t : Todos.TodoDoc => (t._id, t)) =
        fun t => t._id := rfl
    rw [hc] at hidmem
    obtain ⟨t, ht, hte⟩ := List.mem_map.1 hidmem
    have htl : t ∈ List.insertionSort Todos.createdGe docs :=
      List.mem_of_mem_take ht
    have htdocs : t ∈ docs :=
      (List.perm_insertionSort Todos.createdGe docs).mem_iff.1 htl
    have hted : t = d := List.inj_on_of_nodup_map hids htdocs hd hte
    subst hted
    have hsorted := List.sorted_insertionSort Todos.createdGe docs
    have hnds : (List.insertionSort Todos.createdGe docs).Nodup :=
      ((List.perm_insertionSort Todos.createdGe docs).nodup_iff).2
        (hids.of_map)
    have hlen' : 10 < (List.insertionSort Todos.createdGe docs).length := by
      rw [(List.perm_insertionSort Todos.createdGe docs).length_eq]
      exact hlen
    have hmin' : ∀ e ∈ List.insertionSort Todos.createdGe docs,
        e ≠ t → t.created < e.created := fun e he hne =>
      hmin e ((List.perm_insertionSort Todos.createdGe docs).mem_iff.1 he) hne
    exact Todos.oldest_not_mem_take hsorted hnds hlen' hmin' ht

/-- Witness for C1: an 11-document store with distinct ids and distinct
creation times; the document created at time 0 is absent after refresh. -/
theorem c1_refresh_window_witness :
    (("i0" : String) ∉
      (Todos.refresh
        [⟨"i0", "t", false, 0, none⟩, ⟨"i1", "t", false, 1, none⟩,
         ⟨"i2", "t", false, 2, none⟩, ⟨"i3", "t", false, 3, none⟩,
         ⟨"i4", "t", false, 4, none⟩, ⟨"i5", "t", false, 5, none⟩,
         ⟨"i6", "t", false, 6, none⟩, ⟨"i7", "t", false, 7, none⟩,
         ⟨"i8", "t", false, 8, none⟩, ⟨"i9", "t", false, 9, none⟩,
         ⟨"i10", "t", false, 10, none⟩] []).map Prod.fst) :=
  (c1_refresh_window
    [⟨"i0", "t", false, 0, none⟩, ⟨"i1", "t", false, 1, none⟩,
     ⟨"i2", "t", false, 2, none⟩, ⟨"i3", "t", false, 3, none⟩,
     ⟨"i4", "t", false, 4, none⟩, ⟨"i5", "t", false, 5, none⟩,
     ⟨"i6", "t", false, 6, none⟩, ⟨"i7", "t", false, 7, none⟩,
     ⟨"i8", "t", false, 8, none⟩, ⟨"i9", "t", false, 9, none⟩,
     ⟨"i10", "t", false, 10, none⟩] [] (by decide)).2.2
    ⟨"i0", "t", false, 0, none⟩ (by decide) (by decide) (by decide)

/-- C2: in every reachable state of the todo server — after startup and
any interleaving of refreshes (successful or failed), tool calls,
read-only requests and external store mutations — the Mirror Cache has at
most 10 entries, the refresh query's limit. -/
theorem c2_cache_bounded (s : Todos.ServerState) (h : Todos.Reachable s) :
    s.cache.length ≤ 10 := by
  induction h with
  | init docs => simp
  | step hr hstep ih =>
    cases hstep with
    | refreshOk =>
        rename_i t
        exact Todos.refresh_length_le t.docs t.cache
    | refreshFail => exact ih
    | toolCall => rw [Todos.handleCallTool_cache]; exact ih
    | readOnly => exact ih
    | storeSync => exact ih

/-- Witness for C2: the empty startup state is reachable and its cache is
within the bound. -/
theorem c2_cache_bounded_witness :
    Todos.Reachable ⟨[], []⟩ ∧
      (Todos.ServerState.mk [] []).cache.length ≤ 10 :=
  ⟨Todos.Reachable.init [], c2_cache_bounded ⟨[], []⟩ (Todos.Reachable.init [])⟩

/-- C3 counterexample: `onDbEvent` awaits the query BEFORE clearing
`todos` (src/src/index.ts lines 55-62), so a rejected query leaves a
non-empty Mirror Cache exactly as it was — it is not left empty as the
claim states. -/
theorem c3_counterexample :
    (Todos.onDbEvent (Except.error "query failed")
        [("a", ⟨"a", "x", false, 0, none⟩)]).2 ≠ ([] : Todos.Cache) := by
  decide

/-- C3 amended: if the refresh query fails, the error propagates out of
the refresh call and the Mirror Cache retains its previous contents,
because the query is issued before the clear and the clear/populate steps
run only after the query has succeeded. -/
theorem c3_refresh_failure_keeps_cache (c : Todos.Cache) (e : String) :
    Todos.onDbEvent (Except.error e) c = (some e, c) := rfl

/-- C4 counterexample: with `text` ABSENT, `String(undefined)` is the
non-empty string "undefined", so `create_todo` does not fail — it puts a
document with text "undefined" and returns a confirmation, contradicting
the claim that an absent `text` yields a validation error and no put. -/
theorem c4_counterexample :
    (Todos.handleCallTool "create_todo" ⟨none, none⟩ ⟨[], []⟩ "id1" 0).1 =
      Except.ok "Created todo id1: undefined" ∧
    (Todos.handleCallTool "create_todo" ⟨none, none⟩ ⟨[], []⟩ "id1" 0).2.docs =
      [⟨"id1", "undefined", false, 0, none⟩] := ⟨rfl, rfl⟩

/-- C4 amended: a create call (`create_todo` / `create_wish`) whose `text`
argument is the EMPTY STRING fails with the validation error and leaves
the whole state (store and Mirror Cache) unchanged; any other argument —
including an absent one, which coerces to the non-empty string
"undefined" — issues exactly one store put with `done` false and returns
the confirmation string. -/
theorem c4_create_validation (arg idArg : Option String)
    (s : Todos.ServerState) (ws : Wishlist.WState) (newId : String)
    (now : Nat) :
    (arg = some "" →
      Todos.handleCallTool "create_todo" ⟨arg, idArg⟩ s newId now =
        (Except.error "Text is required", s)) ∧
    (arg ≠ some "" →
      Todos.handleCallTool "create_todo" ⟨arg, idArg⟩ s newId now =
        (Except.ok ("Created todo " ++ newId ++ ": " ++ Todos.jsString arg),
         ⟨s.docs ++ [⟨newId, Todos.jsString arg, false, now, none⟩],
          s.cache⟩)) ∧
    (arg = some "" →
      Wishlist.handleCallToolW "create_wish" ⟨arg, none, none, none, none, none⟩
          ws newId now =
        (Except.error "Text is required", ws)) ∧
    (arg ≠ some "" →
      Wishlist.handleCallToolW "create_wish" ⟨arg, none, none, none, none, none⟩
          ws newId now =
        (Except.ok ("Created wish " ++ newId ++ ": " ++ Todos.jsString arg),
         ⟨ws.docs ++
            [Wishlist.WishDoc.wish ⟨newId, false, Todos.jsString arg, now, none⟩],
          ws.cache⟩)) := by
  refine ⟨?_, ?_, ?_, ?_⟩
  · rintro rfl
    rfl
  · intro h
    cases arg with
    | none => rfl
    | some str =>
        have hs : str ≠ "" := fun he => h (by rw [he])
        simp [Todos.handleCallTool, Todos.jsString, hs]
  · rintro rfl
    rfl
  · intro h
    cases arg with
    | none => rfl
    | some str =>
        have hs : str ≠ "" := fun he => h (by rw [he])
        simp [Wishlist.handleCallToolW, Todos.jsString, hs]

/-- Witness for C4's amended theorem: concrete calls on an empty store,
with empty-string text (fails) and with text "milk" (creates). -/
theorem c4_create_validation_witness :
    Todos.handleCallTool "create_todo" ⟨some "milk", none⟩ ⟨[], []⟩ "id1" 7 =
      (Except.ok "Created todo id1: milk",
       ⟨[⟨"id1", "milk", false, 7, none⟩], []⟩) ∧
    Todos.handleCallTool "create_todo" ⟨some "", none⟩ ⟨[], []⟩ "id1" 7 =
      (Except.error "Text is required", ⟨[], []⟩) := by
  have h1 := (c4_create_validation (some "milk") none ⟨[], []⟩ ⟨[], []⟩ "id1"
    7).2.1 (by decide)
  have h2 := (c4_create_validation (some "") none ⟨[], []⟩ ⟨[], []⟩ "id1"
    7).1 rfl
  exact ⟨h1, h2⟩

/-- C5: the read-resource handler uses the URI's path component with one
leading '/' stripped as the record id; it fails exactly when that id is
absent from the Mirror Cache, and on a hit returns one plain-text content
carrying the cached record's text. -/
theorem c5_read_resource (pathname : String) (c : Todos.Cache)
    (uri : String) :
    ((∃ e, Todos.readResource pathname c uri = Except.error e) ↔
      Todos.cacheGet c (Todos.stripLeadingSlash pathname) = none) ∧
    (∀ t, Todos.cacheGet c (Todos.stripLeadingSlash pathname) = some t →
      Todos.readResource pathname c uri =
        Except.ok ⟨uri, "text/plain", t.text⟩) := by
  cases h : Todos.cacheGet c (Todos.stripLeadingSlash pathname) with
  | none =>
      refine ⟨?_, ?_⟩
      · simp [Todos.readResource, h]
      · intro t ht
        exact absurd ht (by simp)
  | some t0 =>
      refine ⟨?_, ?_⟩
      · simp [Todos.readResource, h]
      · intro t ht
        injection ht with ht
        subst ht
        simp [Todos.readResource, h]

/-- Witness for C5: reading `todo:///a` from a cache holding id "a". -/
theorem c5_read_resource_witness :
    Todos.readResource "/a" [("a", ⟨"a", "buy", false, 0, none⟩)]
        "todo:///a" =
      Except.ok ⟨"todo:///a", "text/plain", "buy"⟩ :=
  (c5_read_resource "/a" [("a", ⟨"a", "buy", false, 0, none⟩)]
    "todo:///a").2 ⟨"a", "buy", false, 0, none⟩ (by decide)

/-- C6: after `mark_todo_as_done` succeeds on an id present in the store
and a refresh completes, any cache entry for that id is exactly the old
document with `done` set to true — `text`, `created`, `updated` are all
unchanged (the handler fetches the document, merges `done: true`, writes
it back); moreover with at most 10 stored documents the entry is
guaranteed to be present. -/
theorem c6_mark_then_refresh (s : Todos.ServerState) (id newId : String)
    (now : Nat) (doc : Todos.TodoDoc) (hid : id ≠ "")
    (hget : s.docs.find? (fun d => d._id = id) = some doc)
    (hids : (s.docs.map (fun d => d._id)).Nodup) :
    (∀ d, Todos.cacheGet
        (Todos.refresh
          ((Todos.handleCallTool "mark_todo_as_done" ⟨none, some id⟩ s newId
              now).2).docs
          ((Todos.handleCallTool "mark_todo_as_done" ⟨none, some id⟩ s newId
              now).2).cache) id = some d →
      d.done = true ∧ d.text = doc.text ∧ d.created = doc.created ∧
        d.updated = doc.updated) ∧
    (s.docs.length ≤ 10 →
      Todos.cacheGet
        (Todos.refresh
          ((Todos.handleCallTool "mark_todo_as_done" ⟨none, some id⟩ s newId
              now).2).docs
          ((Todos.handleCallTool "mark_todo_as_done" ⟨none, some id⟩ s newId
              now).2).cache) id = some { doc with done := true }) := by
  have hdocid : doc._id = id := by simpa using List.find?_some hget
  have hs' : (Todos.handleCallTool "mark_todo_as_done" ⟨none, some id⟩ s newId
      now).2 =
      ⟨s.docs.map (fun d => if d._id = id then { doc with done := true }
        else d), s.cache⟩ := by
    simp [Todos.handleCallTool, Todos.jsString, hid, hget]
  rw [hs']
  have hids' : (((s.docs.map (fun d => if d._id = id then
      { doc with done := true } else d)).map (fun d => d._id))).Nodup := by
    rw [List.map_map]
    have hc : ((fun d : Todos.TodoDoc => d._id) ∘ fun d =>
        if d._id = id then { doc with done := true } else d) =
        fun d : Todos.TodoDoc => d._id := by
      funext d
      by_cases hcc : d._id = id
      · simp [hcc, hdocid]
      · simp [hcc]
    rw [hc]
    exact hids
  have heq := Todos.refresh_eq
    (s.docs.map (fun d => if d._id = id then { doc with done := true }
      else d)) s.cache hids'
  constructor
  · intro d hd
    have hmem := Todos.mem_of_cacheGet hd
    rw [heq] at hmem
    obtain ⟨t, ht, hte⟩ := List.mem_map.1 hmem
    have ht1 : t._id = id := congrArg Prod.fst hte
    have ht2 : t = d := congrArg Prod.snd hte
    subst ht2
    have htd : t ∈ s.docs.map (fun d => if d._id = id then
        { doc with done := true } else d) :=
      (List.perm_insertionSort Todos.createdGe _).mem_iff.1
        (List.mem_of_mem_take ht)
    obtain ⟨e, he, hfe⟩ := List.mem_map.1 htd
    by_cases hcc : e._id = id
    · rw [if_pos hcc] at hfe
      rw [← hfe]
      exact ⟨rfl, rfl, rfl, rfl⟩
    · rw [if_neg hcc] at hfe
      exact absurd (hfe ▸ ht1) hcc
  · intro hlen
    have hperm := List.perm_insertionSort Todos.createdGe
      (s.docs.map (fun d => if d._id = id then { doc with done := true }
        else d))
    have hlen' : (List.insertionSort Todos.createdGe
        (s.docs.map (fun d => if d._id = id then { doc with done := true }
          else d))).length ≤ 10 := by
      rw [hperm.length_eq, List.length_map]
      exact hlen
    have hrows : Todos.queryCreatedDesc
        (s.docs.map (fun d => if d._id = id then { doc with done := true }
          else d)) 10 =
        List.insertionSort Todos.createdGe
          (s.docs.map (fun d => if d._id = id then { doc with done := true }
            else d)) := by
      unfold Todos.queryCreatedDesc
      exact List.take_of_length_le hlen'
    have hupd : ({ doc with done := true } : Todos.TodoDoc) ∈
        s.docs.map (fun d => if d._id = id then { doc with done := true }
          else d) :=
      List.mem_map.2 ⟨doc, List.mem_of_find?_eq_some hget, by
        rw [if_pos hdocid]⟩
    have hpair : (id, ({ doc with done := true } : Todos.TodoDoc)) ∈
        Todos.refresh (s.docs.map (fun d => if d._id = id then
          { doc with done := true } else d)) s.cache := by
      rw [heq]
      refine List.mem_map.2 ⟨{ doc with done := true }, ?_, ?_⟩
      · rw [hrows]
        exact hperm.mem_iff.2 hupd
      · show ((({ doc with done := true } : Todos.TodoDoc))._id, _) = _
        rw [show (({ doc with done := true } : Todos.TodoDoc))._id = id from
          hdocid]
    have hkeys : ((Todos.refresh (s.docs.map (fun d => if d._id = id then
        { doc with done := true } else d)) s.cache).map Prod.fst).Nodup := by
      rw [heq, List.map_map]
      have hc : (Prod.fst ∘ fun t : Todos.TodoDoc => (t._id, t)) =
          fun t : Todos.TodoDoc => t._id := rfl
      rw [hc]
      exact Todos.rows_ids_nodup _ hids'
    exact Todos.cacheGet_eq_of_mem hpair hkeys

/-- Witness for C6: create "Buy milk", mark it done, refresh: the cache
entry keeps the text and creation time and has `done` true. -/
theorem c6_mark_then_refresh_witness :
    Todos.cacheGet
      (Todos.refresh
        ((Todos.handleCallTool "mark_todo_as_done" ⟨none, some "a"⟩
            ⟨[⟨"a", "Buy milk", false, 5, none⟩], []⟩ "x" 9).2).docs
        ((Todos.handleCallTool "mark_todo_as_done" ⟨none, some "a"⟩
            ⟨[⟨"a", "Buy milk", false, 5, none⟩], []⟩ "x" 9).2).cache) "a" =
      some ⟨"a", "Buy milk", true, 5, none⟩ :=
  (c6_mark_then_refresh ⟨[⟨"a", "Buy milk", false, 5, none⟩], []⟩ "a" "x" 9
    ⟨"a", "Buy milk", false, 5, none⟩ (by decide) (by decide) (by decide)).2
    (by decide)

/-- C7 counterexample: marking the record "a" as done at time 99 leaves
`updated` absent (`none`) — the read-modify-write merges only
`done: true`, so mutation does NOT set an `updated` timestamp. -/
theorem c7_counterexample :
    (Todos.handleCallTool "mark_todo_as_done" ⟨none, some "a"⟩
        ⟨[⟨"a", "x", false, 5, none⟩], []⟩ "n" 99).2.docs =
      [⟨"a", "x", true, 5, none⟩] ∧
    (⟨"a", "x", true, 5, none⟩ : Todos.TodoDoc).updated ≠ some 99 :=
  ⟨rfl, by decide⟩

/-- C7 amended: `created` is set exactly once, at insertion (`db.put`
stores `created: Date.now()` and no `updated` field), and the
mark-as-done read-modify-write preserves every field except `done` — in
particular it never writes `updated`, which no code path sets. -/
theorem c7_timestamps (arg idArg : Option String) (s : Todos.ServerState)
    (newId : String) (now : Nat) (id : String) (doc : Todos.TodoDoc)
    (hid : id ≠ "")
    (hget : s.docs.find? (fun d => d._id = id) = some doc) :
    (Todos.jsString arg ≠ "" →
      (Todos.handleCallTool "create_todo" ⟨arg, idArg⟩ s newId now).2.docs =
        s.docs ++ [⟨newId, Todos.jsString arg, false, now, none⟩]) ∧
    ((Todos.handleCallTool "mark_todo_as_done" ⟨none, some id⟩ s newId
        now).2.docs =
      s.docs.map (fun d => if d._id = id then { doc with done := true }
        else d)) ∧
    ({ doc with done := true } : Todos.TodoDoc).created = doc.created ∧
    ({ doc with done := true } : Todos.TodoDoc).updated = doc.updated := by
  refine ⟨?_, ?_, rfl, rfl⟩
  · intro h
    cases arg with
    | none => rfl
    | some str =>
        have hs : str ≠ "" := h
        simp [Todos.handleCallTool, Todos.jsString, hs]
  · simp [Todos.handleCallTool, Todos.jsString, hid, hget]

/-- Witness for C7's amended theorem: creating at time 7 stores
`created = 7` and no `updated`; marking preserves `created` and
`updated`. -/
theorem c7_timestamps_witness :
    (Todos.handleCallTool "create_todo" ⟨some "milk", none⟩
        ⟨[⟨"a", "x", false, 5, none⟩], []⟩ "b" 7).2.docs =
      [⟨"a", "x", false, 5, none⟩, ⟨"b", "milk", false, 7, none⟩] ∧
    (Todos.handleCallTool "mark_todo_as_done" ⟨none, some "a"⟩
        ⟨[⟨"a", "x", false, 5, none⟩], []⟩ "b" 7).2.docs =
      [⟨"a", "x", true, 5, none⟩] :=
  ⟨(c7_timestamps (some "milk") none ⟨[⟨"a", "x", false, 5, none⟩], []⟩ "b" 7
      "a" ⟨"a", "x", false, 5, none⟩ (by decide) (by decide)).1 (by decide),
   (c7_timestamps (some "milk") none ⟨[⟨"a", "x", false, 5, none⟩], []⟩ "b" 7
      "a" ⟨"a", "x", false, 5, none⟩ (by decide) (by decide)).2.1⟩

namespace Wishlist

lemma wish_not_found_ne (ids : String) :
    ("Wish " ++ ids ++ " not found") ≠ "Unknown prompt" := by
  intro h
  have hlen := congrArg String.length h
  have h5 : ("Wish " : String).length = 5 := rfl
  have h10 : (" not found" : String).length = 10 := rfl
  have h14 : ("Unknown prompt" : String).length = 14 := rfl
  rw [String.length_append, String.length_append, h5, h10, h14] at hlen
  omega

end Wishlist

/-- C8 counterexample: an elf shopping item cached under id "e1" IS
present in the Mirror Cache, yet the `elf_shopping_list` prompt fails
with the not-found error because of the `!('text' in wish)` guard — so
"fails iff the id is absent" is false. -/
theorem c8_counterexample :
    Wishlist.getPromptW "elf_shopping_list"
        ⟨none, none, none, none, none, some "e1"⟩
        [("e1", Wishlist.WishDoc.elf ⟨"e1", "hammer", 5, "w1", 0, none⟩)] =
      Except.error "Wish e1 not found" ∧
    Wishlist.wcacheGet
        [("e1", Wishlist.WishDoc.elf ⟨"e1", "hammer", 5, "w1", 0, none⟩)]
        "e1" =
      some (Wishlist.WishDoc.elf ⟨"e1", "hammer", 5, "w1", 0, none⟩) :=
  ⟨rfl, rfl⟩

/-- C8 amended: unrecognized prompt names fail with "Unknown prompt"
(and only they do); `summarize_wishes` never fails; `elf_shopping_list`
fails with the not-found error exactly when the referenced id is absent
from the Mirror Cache OR the cached record is an elf item (it lacks a
`text` field, so the `!('text' in wish)` guard treats it as missing). -/
theorem c8_get_prompt (name : String) (args : Wishlist.WArgs)
    (c : Wishlist.WCache) :
    (name ≠ "summarize_wishes" → name ≠ "elf_shopping_list" →
      Wishlist.getPromptW name args c = Except.error "Unknown prompt") ∧
    (∃ m, Wishlist.getPromptW "summarize_wishes" args c = Except.ok m) ∧
    (Wishlist.getPromptW "elf_shopping_list" args c =
        Except.error ("Wish " ++ Todos.jsString args.wish_id ++ " not found")
      ↔ (Wishlist.wcacheGet c (Todos.jsString args.wish_id) = none ∨
         ∃ e, Wishlist.wcacheGet c (Todos.jsString args.wish_id) =
           some (Wishlist.WishDoc.elf e))) ∧
    (Wishlist.getPromptW "elf_shopping_list" args c ≠
      Except.error "Unknown prompt") := by
  refine ⟨?_, ⟨_, rfl⟩, ?_, ?_⟩
  · intro h1 h2
    unfold Wishlist.getPromptW
    split
    · exfalso; apply h1; rfl
    · exfalso; apply h2; rfl
    · rfl
  · cases hw : Wishlist.wcacheGet c (Todos.jsString args.wish_id) with
    | none => simp [Wishlist.getPromptW, hw]
    | some d =>
        cases d with
        | wish w => simp [Wishlist.getPromptW, hw]
        | elf e => simp [Wishlist.getPromptW, hw]
  · cases hw : Wishlist.wcacheGet c (Todos.jsString args.wish_id) with
    | none =>
        simp only [Wishlist.getPromptW, hw, ne_eq, Except.error.injEq]
        exact Wishlist.wish_not_found_ne _
    | some d =>
        cases d with
        | wish w => simp [Wishlist.getPromptW, hw]
        | elf e =>
            simp only [Wishlist.getPromptW, hw, ne_eq, Except.error.injEq]
            exact Wishlist.wish_not_found_ne _

/-- Witness for C8's amended theorem: an unrecognized prompt name fails
with "Unknown prompt". -/
theorem c8_get_prompt_witness :
    Wishlist.getPromptW "bogus" ⟨none, none, none, none, none, none⟩ [] =
      Except.error "Unknown prompt" :=
  (c8_get_prompt "bogus" ⟨none, none, none, none, none, none⟩ []).1
    (by decide) (by decide)

/-- C9: list-resources is a pure projection of the Mirror Cache: two
invocations over equal caches return identical resource lists (same
entries, order, uri/mimeType/name/description), the handler never fails,
and an empty cache yields the empty list. -/
theorem c9_list_resources (s1 s2 : Todos.ServerState)
    (h : s1.cache = s2.cache) :
    Todos.listResources s1 = Todos.listResources s2 ∧
    (∃ l, Todos.listResources s1 = Except.ok l) ∧
    (s1.cache = [] → Todos.listResources s1 = Except.ok []) := by
  refine ⟨?_, ⟨_, rfl⟩, ?_⟩
  · unfold Todos.listResources
    rw [h]
  · intro he
    unfold Todos.listResources
    rw [he]
    rfl

/-- Witness for C9: two states with the same (empty) cache but different
stores produce identical resource lists. -/
theorem c9_list_resources_witness :
    Todos.listResources ⟨[⟨"a", "x", false, 0, none⟩], []⟩ =
      Todos.listResources ⟨[], []⟩ ∧
    Todos.listResources ⟨[⟨"a", "x", false, 0, none⟩], []⟩ = Except.ok [] :=
  ⟨(c9_list_resources ⟨[⟨"a", "x", false, 0, none⟩], []⟩ ⟨[], []⟩ rfl).1,
   (c9_list_resources ⟨[⟨"a", "x", false, 0, none⟩], []⟩ ⟨[], []⟩ rfl).2.2
     rfl⟩

/-- C10: the wishlist variant publishes a tool named `elf_shopping_list`
in list-tools, but the call-tool dispatcher has no case for that name, so
every invocation of it — whatever the arguments and state — falls through
to the default branch, fails with "Unknown tool", and leaves the state
unchanged. -/
theorem c10_elf_shopping_list_tool (args : Wishlist.WArgs)
    (s : Wishlist.WState) (newId : String) (now : Nat) :
    "elf_shopping_list" ∈ Wishlist.listToolsW.map Wishlist.ToolInfo.name ∧
    Wishlist.handleCallToolW "elf_shopping_list" args s newId now =
      (Except.error "Unknown tool", s) :=
  ⟨by decide, rfl⟩
